import Mathlib

/-!
Verification of the phantom-persona library's core value objects and
plugin-resolution logic, shallowly embedded from the Python sources
(`phantom_persona/proxy/models.py`, `persona/identity.py`,
`config/levels.py`, `config/schema.py`, `plugins/base.py`,
`plugins/registry.py`, `core/session.py`, `core/context.py`).

Conventions of the embedding:
- Python `datetime` values are opaque timestamps modelled as `Nat`
  (microsecond resolution); `datetime.now()` becomes an explicit `now`
  argument threaded to every mutating call that reads the clock.
- Python floats that are only stored and compared (config delay ranges,
  device pixel ratio) are modelled as `Rat`; no floating-point
  arithmetic is performed on them anywhere in the sources.
- Python strings that the code splits or parses are modelled as their
  character lists (`Chars`), with splitting/joining defined by structural
  recursion so that concrete runs evaluate inside the kernel.
- Mutating methods become functions returning the updated value;
  raising code returns `Except`.
- Engine (Playwright) calls are opaque: their outcomes are explicit
  oracle arguments (e.g. whether cookie extraction succeeds).
-/

deriving instance DecidableEq for Except

namespace PhantomPersona

/-- Characters of a Python string. -/
abbrev Chars := List Char

/-- Python's `s.split(c)` for a one-character separator: always returns
at least one (possibly empty) part. -/
def splitOnChar (c : Char) : Chars → List Chars
  | [] => [[]]
  | ch :: rest =>
    match splitOnChar c rest with
    | [] => [[]]
    | g :: gs => if ch = c then [] :: g :: gs else (ch :: g) :: gs

/-- Python's `"://" in s`. -/
def hasProtoSep : Chars → Bool
  | ':' :: '/' :: '/' :: _ => true
  | _ :: rest => hasProtoSep rest
  | [] => false

/-- Split at the first occurrence of `"://"`, if any. -/
def splitProtoSep : Chars → Option (Chars × Chars)
  | ':' :: '/' :: '/' :: rest => some ([], rest)
  | c :: rest => (splitProtoSep rest).map (fun pr => (c :: pr.1, pr.2))
  | [] => none

/-- Join parts with a one-character separator (inverse of `splitOnChar`). -/
def joinChar (c : Char) : List Chars → Chars
  | [] => []
  | [g] => g
  | g :: gs => g ++ c :: joinChar c gs

/-- Decimal digits of `Python int(...)` (accumulator form). -/
def parseNatAux : Chars → Nat → Option Nat
  | [], acc => some acc
  | c :: rest, acc =>
    if c.isDigit then parseNatAux rest (acc * 10 + (c.toNat - 48)) else none

/-- Parse a non-empty all-digit string as a `Nat`. -/
def parseNat? : Chars → Option Nat
  | [] => none
  | cs => parseNatAux cs 0

/-- Python `int(s)` on a decimal string with an optional leading minus
sign (the shapes the proxy parser can meet); anything else raises
`ValueError`, i.e. yields `none`. -/
def parseInt? : Chars → Option Int
  | '-' :: rest => (parseNat? rest).map (fun n => -(n : Int))
  | cs => (parseNat? cs).map (fun n => (n : Int))

/-- `GeoInfo` dataclass from `persona/identity.py`. -/
structure GeoInfo where
  country_code : String
  country : String
  city : Option String
  timezone : String
  language : String
  languages : List String
deriving Repr, DecidableEq

/-- `ProxyInfo` dataclass from `proxy/models.py` (fields in source order;
`last_check` is an optional timestamp). -/
structure ProxyInfo where
  host : Chars
  port : Int
  protocol : Chars := "http".toList
  username : Option Chars := none
  password : Option Chars := none
  geo : Option GeoInfo := none
  speed_ms : Option Int := none
  is_residential : Bool := false
  is_valid : Bool := true
  last_check : Option Nat := none
  fail_count : Nat := 0
deriving Repr, DecidableEq

/-- `ProxyInfo.mark_failed` (`proxy/models.py` lines 99-120): increment
`fail_count`, stamp `last_check`, and invalidate once `fail_count`
exceeds 3. -/
def ProxyInfo.mark_failed (p : ProxyInfo) (now : Nat) : ProxyInfo :=
  let p' := { p with fail_count := p.fail_count + 1, last_check := some now }
  if p'.fail_count > 3 then { p' with is_valid := false } else p'

/-- `ProxyInfo.mark_valid` (`proxy/models.py` lines 122-146): set valid,
reset `fail_count`, record speed and `last_check`, unconditionally. -/
def ProxyInfo.mark_valid (p : ProxyInfo) (x : Int) (now : Nat) : ProxyInfo :=
  { p with is_valid := true, fail_count := 0, speed_ms := some x,
           last_check := some now }

/-- The distinct `ValueError` conditions raised by the proxy parsers. -/
inductive ProxyParseError where
  | formatError
  | missingHostname
  | missingPort
  | invalidProtocol
  | invalidPort
deriving Repr, DecidableEq

/-- `ProxyInfo.from_url` (`proxy/models.py` lines 148-192). The source
uses `urllib.parse.urlparse`; this embeds its behaviour on
`scheme://[userinfo@]host:port` shapes: the text after the first `"://"`
up to the first `"/"` is the netloc, credentials stand before the last
`"@"` and split at the first `":"`, the hostname is the part of the
remainder before the last `":"` (empty reads back as missing), and the
port is the decimal text after it (`urlparse` reports an absent or zero
port as falsy, which the source turns into the missing-port error; a
non-numeric port makes `urlparse` itself raise `ValueError`). -/
def ProxyInfo.from_url (url : Chars) : Except ProxyParseError ProxyInfo :=
  match splitProtoSep url with
  | none => .error .missingHostname
  | some (scheme, rest) =>
    let netloc := (splitOnChar '/' rest).headD []
    let atParts := splitOnChar '@' netloc
    let hostport := atParts.getLastD []
    let userinfo? : Option Chars :=
      if atParts.length ≥ 2 then some (joinChar '@' atParts.dropLast) else none
    let username? : Option Chars := userinfo?.map (fun u => (splitOnChar ':' u).headD u)
    let password? : Option Chars := userinfo?.bind (fun u =>
      match splitOnChar ':' u with
      | [] => none
      | [_] => none
      | _ :: restU => some (joinChar ':' restU))
    match splitOnChar ':' hostport with
    | [] => .error .missingHostname
    | [h] => if h = [] then .error .missingHostname else .error .missingPort
    | parts =>
      let h := joinChar ':' parts.dropLast
      let portStr := parts.getLastD []
      if h = [] then .error .missingHostname
      else
        match parseNat? portStr with
        | none => .error .invalidPort
        | some 0 => .error .missingPort
        | some pn =>
          let protocol := if scheme = [] then "http".toList else scheme
          if protocol = "http".toList ∨ protocol = "https".toList ∨
              protocol = "socks5".toList then
            .ok { host := h, port := (pn : Int), protocol := protocol,
                  username := username?, password := password? }
          else .error .invalidProtocol

/-- `ProxyInfo.from_string` (`proxy/models.py` lines 194-251): URL-like
strings are delegated to `from_url`; otherwise the string splits on
`":"` into exactly 2 (`host:port`) or 4 (`host:port:user:pass`) parts,
any other count raising the format `ValueError`. A non-numeric port
raises `int()`'s `ValueError` (uncaught in the source), embedded as
`invalidPort`. -/
def ProxyInfo.from_string (s : Chars) : Except ProxyParseError ProxyInfo :=
  if hasProtoSep s then ProxyInfo.from_url s
  else
    match splitOnChar ':' s with
    | [host, portStr] =>
      match parseInt? portStr with
      | some p => .ok { host := host, port := p }
      | none => .error .invalidPort
    | [host, portStr, username, password] =>
      match parseInt? portStr with
      | some p => .ok { host := host, port := p,
                        username := some username, password := some password }
      | none => .error .invalidPort
    | _ => .error .formatError

/-- C2: from a fresh `ProxyInfo`, three `mark_failed` calls leave
`is_valid = true` (with `fail_count = 3`); the fourth flips it to
`false`; and from any state, `mark_valid x` resets `fail_count` to 0,
sets `is_valid`, and records `speed_ms = x`. -/
theorem c2_proxy_failure_threshold (host : Chars) (port : Int)
    (t1 t2 t3 t4 tv : Nat) (x : Int) :
    (((({ host := host, port := port : ProxyInfo}.mark_failed t1).mark_failed
        t2).mark_failed t3).is_valid = true) ∧
    (((({ host := host, port := port : ProxyInfo}.mark_failed t1).mark_failed
        t2).mark_failed t3).fail_count = 3) ∧
    ((((({ host := host, port := port : ProxyInfo}.mark_failed t1).mark_failed
        t2).mark_failed t3).mark_failed t4).is_valid = false) ∧
    (∀ q : ProxyInfo, (q.mark_valid x tv).fail_count = 0 ∧
      (q.mark_valid x tv).is_valid = true ∧
      (q.mark_valid x tv).speed_ms = some x) := by
  refine ⟨?_, ?_, ?_, fun q => ⟨rfl, rfl, rfl⟩⟩ <;>
    simp [ProxyInfo.mark_failed]

/-- C7: `from_string` on the 4-part and 2-part compact forms yields the
stated host/port/credentials; every non-URL string whose `":"`-part
count is neither 2 nor 4 raises the format error; and
`from_url "http://:8080"` raises the missing-hostname error. -/
theorem c7_proxy_string_parsing :
    (ProxyInfo.from_string "proxy.example.com:8080:user:pass".toList =
      .ok { host := "proxy.example.com".toList, port := 8080,
            username := some "user".toList, password := some "pass".toList }) ∧
    (ProxyInfo.from_string "proxy.example.com:8080".toList =
      .ok { host := "proxy.example.com".toList, port := 8080 }) ∧
    (∀ s : Chars, hasProtoSep s = false →
      (splitOnChar ':' s).length ≠ 2 → (splitOnChar ':' s).length ≠ 4 →
      ProxyInfo.from_string s = .error .formatError) ∧
    (ProxyInfo.from_url "http://:8080".toList = .error .missingHostname) := by
  refine ⟨by decide, by decide, ?_, by decide⟩
  intro s hsep h2 h4
  rw [ProxyInfo.from_string, if_neg (by simp [hsep])]
  split
  · next heq => rw [heq] at h2; exact absurd rfl h2
  · next heq => rw [heq] at h4; exact absurd rfl h4
  · rfl

/-- C7 witness: the third conjunct applied at the 1-part input `"host"`. -/
theorem c7_proxy_string_parsing_witness :
    ProxyInfo.from_string "host".toList = .error .formatError :=
  c7_proxy_string_parsing.2.2.1 "host".toList (by decide) (by decide) (by decide)

/-- `DeviceInfo` dataclass from `persona/identity.py`. The source's
device pixel-ratio float field is named `dpr` here (stored and copied
only, never computed with). -/
structure DeviceInfo where
  type : String
  platform : String
  vendor : String
  renderer : String
  screen_width : Int
  screen_height : Int
  color_depth : Int := 24
  dpr : Rat := 1
deriving Repr, DecidableEq

/-- `Fingerprint` dataclass from `persona/identity.py`. -/
structure Fingerprint where
  user_agent : String
  device : DeviceInfo
  canvas_hash : Option String := none
  webgl_hash : Option String := none
  audio_hash : Option String := none
  fonts : List String := []
deriving Repr, DecidableEq

/-- The `proxy` field of a `Persona` is typed `Optional[Any]` in the
source: it may be absent, an actual `ProxyInfo` dataclass instance, or a
plain mapping of `ProxyInfo`'s fields (which is what
`dataclasses.asdict` turns an attached instance into). -/
inductive ProxyField where
  | none
  | info (p : ProxyInfo)
  | mapping (p : ProxyInfo)
deriving Repr, DecidableEq

/-- A serialized timestamp as it sits in the persona mapping: either
ISO-8601 text or an already-parsed `datetime`. `datetime.fromisoformat`
recovers exactly the timestamp `isoformat` printed (microsecond
precision), so the ISO text for timestamp `t` is represented by `t`
itself. -/
inductive TimeVal where
  | iso (t : Nat)
  | dt (t : Nat)
deriving Repr, DecidableEq

/-- `Persona` dataclass from `persona/identity.py`. -/
structure Persona where
  fingerprint : Fingerprint
  geo : GeoInfo
  created_at : Nat
  id : String
  proxy : ProxyField := .none
  cookies : List (String × String) := []
  local_storage : List (String × String) := []
  last_used : Option Nat := none
  use_count : Nat := 0
  is_burned : Bool := false
deriving Repr, DecidableEq

/-- `Persona.mark_used` (`persona/identity.py` lines 161-177): refresh
`last_used` and increment `use_count`. -/
def Persona.mark_used (p : Persona) (now : Nat) : Persona :=
  { p with last_used := some now, use_count := p.use_count + 1 }

/-- The mapping produced by `Persona.to_dict`: nested dataclasses appear
as mappings of the same fields (`Fingerprint`/`GeoInfo` structures stand
for those mappings directly, since `from_dict` rebuilds them exactly),
and the two top-level timestamps appear as ISO text. -/
structure PersonaDict where
  id : String
  fingerprint : Fingerprint
  geo : GeoInfo
  proxy : ProxyField
  cookies : List (String × String)
  local_storage : List (String × String)
  created_at : TimeVal
  last_used : Option TimeVal
  use_count : Nat
  is_burned : Bool
deriving Repr, DecidableEq

/-- `Persona.to_dict` (`persona/identity.py` lines 193-214):
`dataclasses.asdict` turns every nested dataclass into a plain mapping
(in particular an attached `ProxyInfo` becomes a mapping), then
`created_at`/`last_used` are overwritten with their ISO text. -/
def Persona.to_dict (p : Persona) : PersonaDict :=
  { id := p.id
    fingerprint := p.fingerprint
    geo := p.geo
    proxy := match p.proxy with
      | .info q => .mapping q
      | x => x
    cookies := p.cookies
    local_storage := p.local_storage
    created_at := .iso p.created_at
    last_used := p.last_used.map .iso
    use_count := p.use_count
    is_burned := p.is_burned }

/-- `datetime.fromisoformat` on ISO text, identity on an already-parsed
timestamp (the `isinstance(..., str)` branch of `from_dict`). -/
def TimeVal.parse : TimeVal → Nat
  | .iso t => t
  | .dt t => t

/-- `Persona.from_dict` (`persona/identity.py` lines 216-274): rebuilds
`DeviceInfo`/`Fingerprint`/`GeoInfo` from their mappings, parses the two
timestamps, and copies the remaining entries as they are — the `proxy`
entry is stored unconverted (`data.get("proxy")`). -/
def Persona.from_dict (d : PersonaDict) : Persona :=
  { id := d.id
    fingerprint := d.fingerprint
    geo := d.geo
    proxy := d.proxy
    cookies := d.cookies
    local_storage := d.local_storage
    created_at := d.created_at.parse
    last_used := d.last_used.map TimeVal.parse
    use_count := d.use_count
    is_burned := d.is_burned }

/-- A concrete persona with an attached `ProxyInfo`, saved cookies,
local-storage entries, a `last_used` timestamp, a nonzero `use_count`
and `is_burned` set. -/
def personaWithProxy : Persona :=
  { fingerprint :=
      { user_agent := "Mozilla/5.0 (X11; Linux x86_64)"
        device :=
          { type := "desktop", platform := "Linux x86_64", vendor := "Intel"
            renderer := "Mesa", screen_width := 1920, screen_height := 1080 }
        canvas_hash := some "a1b2c3d4" }
    geo :=
      { country_code := "DE", country := "Germany", city := some "Berlin"
        timezone := "Europe/Berlin", language := "de-DE"
        languages := ["de-DE", "de", "en"] }
    created_at := 1700000000000000
    id := "550e8400-e29b-41d4-a716-446655440000"
    proxy := .info { host := "proxy.example.com".toList, port := 8080 }
    cookies := [("session", "abc123")]
    local_storage := [("theme", "dark")]
    last_used := some 1700000001000000
    use_count := 3
    is_burned := true }

/-- C3 counterexample: for a persona with an attached `ProxyInfo`, the
`to_dict`/`from_dict` round trip does not reproduce the persona — the
restored `proxy` field holds the plain field mapping that `asdict`
produced, not the `ProxyInfo` value. -/
theorem c3_roundtrip_counterexample :
    Persona.from_dict (Persona.to_dict personaWithProxy) ≠ personaWithProxy := by
  decide

/-- C3 as amended: the round trip preserves every field of every
persona, except that an attached `ProxyInfo` comes back as the plain
mapping of its fields; in particular the round trip is the identity on
every persona whose `proxy` is not an attached `ProxyInfo` instance. -/
theorem c3_roundtrip_amended (p : Persona) :
    Persona.from_dict (Persona.to_dict p) =
      { p with proxy := match p.proxy with
          | .info q => .mapping q
          | x => x } := by
  cases p with
  | mk fingerprint geo created_at id proxy cookies local_storage last_used
      use_count is_burned =>
    cases last_used <;> cases proxy <;>
      simp [Persona.to_dict, Persona.from_dict, TimeVal.parse]

/-- A plugin class as the registry stores it (`plugins/base.py`): the
`name` class attribute (absent on classes that never set one, hence
`Option`), an integer `priority` defaulting to 100, and the
`is_compatible` predicate defaulting to accepting every browser.
Plugins are stateless, so instantiating a class yields exactly this
data. -/
structure PluginClass where
  name? : Option String
  priority : Int := 100
  compatible : String → Bool := fun _ => true

/-- An instantiated plugin as `get_for_level` returns them. -/
structure Plugin where
  name : String
  priority : Int
  compatible : String → Bool

/-- `plugin_class()` — instantiation copies the class attributes. -/
def PluginClass.instantiate (c : PluginClass) : Plugin :=
  { name := c.name?.getD "", priority := c.priority, compatible := c.compatible }

/-- The registry's `_plugins` dict, name to class
(`plugins/registry.py`). -/
def Registry := String → Option PluginClass

/-- A fresh (or `clear()`ed) registry. -/
def Registry.empty : Registry := fun _ => Option.none

/-- `register` raises `AttributeError` when the class has no `name`. -/
inductive RegisterError where
  | attributeError
deriving Repr, DecidableEq

/-- `PluginRegistry.register` (`plugins/registry.py` lines 51-83):
requires only that the class has a `name` attribute (`hasattr`), then
stores the class under that name, silently overwriting any earlier
entry. -/
def Registry.register (reg : Registry) (c : PluginClass) :
    Except RegisterError Registry :=
  match c.name? with
  | Option.none => .error .attributeError
  | some n => .ok (fun m => if m = n then some c else reg m)

/-- `PluginRegistry.get` (`plugins/registry.py` lines 85-107): `KeyError`
on an unregistered name. -/
def Registry.get (reg : Registry) (n : String) : Except Unit PluginClass :=
  match reg n with
  | some c => .ok c
  | Option.none => .error ()

/-- `LEVEL_PLUGINS` from `config/levels.py` lines 33-104, in source
order; the `_` branch is the `LEVEL_PLUGINS.get(level, [])` default for
keys outside the table. -/
def LEVEL_PLUGINS : Nat → List String
  | 0 => []
  | 1 => ["stealth.basic", "fingerprint.navigator"]
  | 2 => ["stealth.basic", "stealth.chrome",
          "fingerprint.navigator", "fingerprint.canvas",
          "fingerprint.webgl", "fingerprint.fonts",
          "behavior.delays"]
  | 3 => ["stealth.basic", "stealth.chrome", "stealth.permissions",
          "fingerprint.navigator", "fingerprint.canvas",
          "fingerprint.webgl", "fingerprint.fonts",
          "fingerprint.audio", "fingerprint.screen",
          "behavior.delays", "behavior.mouse", "behavior.scroll",
          "behavior.typing",
          "proxy.timezone"]
  | 4 => ["stealth.basic", "stealth.chrome", "stealth.permissions",
          "stealth.cdp", "stealth.iframe",
          "fingerprint.navigator", "fingerprint.canvas",
          "fingerprint.webgl", "fingerprint.fonts",
          "fingerprint.audio", "fingerprint.screen",
          "fingerprint.webrtc", "fingerprint.battery",
          "behavior.delays", "behavior.mouse", "behavior.scroll",
          "behavior.typing", "behavior.interactions", "behavior.patterns",
          "proxy.timezone", "proxy.geo",
          "quirks.plugins", "quirks.extensions"]
  | _ => []

/-- `get_plugins_for_level` raises `ValueError` outside 0-4. -/
inductive LevelError where
  | invalidLevel
deriving Repr, DecidableEq

/-- `get_plugins_for_level` (`config/levels.py` lines 147-180):
`ProtectionLevel(level)` raises `ValueError` for integers outside 0-4;
otherwise a copy of the level's plugin list is returned (a pure lookup,
no write to the table). -/
def get_plugins_for_level (level : Int) : Except LevelError (List String) :=
  if 0 ≤ level ∧ level ≤ 4 then .ok (LEVEL_PLUGINS level.toNat)
  else .error .invalidLevel

/-- The sort key of `sorted(plugins, key=lambda p: p.priority)`. -/
def priorityLE (a b : Plugin) : Prop := a.priority ≤ b.priority

instance : DecidableRel priorityLE := fun a b => Int.decLe a.priority b.priority

instance : IsTotal Plugin priorityLE := ⟨fun a b => Int.le_total a.priority b.priority⟩

instance : IsTrans Plugin priorityLE := ⟨fun _ _ _ => Int.le_trans⟩

/-- The loop body of `get_for_level` before sorting: walk the level's
plugin-name table, skip unregistered names (`except KeyError: pass`),
instantiate, and keep only browser-compatible plugins — in table
order. -/
def Registry.level_candidates (reg : Registry) (level : Nat)
    (browser_type : String) : List Plugin :=
  (LEVEL_PLUGINS level).filterMap (fun n =>
    match reg n with
    | some c =>
      if c.instantiate.compatible browser_type then some c.instantiate
      else Option.none
    | Option.none => Option.none)

/-- `PluginRegistry.get_for_level` (`plugins/registry.py` lines
109-155): candidates in table order, then `sorted` by priority —
Python's sort is stable, embedded as insertion sort with the stable
insertion rule. (For an integer level outside 0-4 the source raises
`ValueError` at `ProtectionLevel(level)`; the claims only concern
levels 0-4.) -/
def Registry.get_for_level (reg : Registry) (level : Nat)
    (browser_type : String) : List Plugin :=
  List.insertionSort priorityLE (reg.level_candidates level browser_type)

/-- `BasicStealthPlugin` (`stealth/plugins/basic.py`): name
`stealth.basic`, priority 10, compatible with every browser. -/
def BasicStealthPlugin : PluginClass :=
  { name? := some "stealth.basic", priority := 10 }

/-- `PluginRegistry.autodiscover` (`plugins/registry.py` lines 170-196)
imports `phantom_persona.stealth.plugins`,
`phantom_persona.fingerprint.plugins` and `phantom_persona.behavior`,
silently swallowing `ImportError`. Only the first of these modules
exists in the repository, and importing it registers exactly
`BasicStealthPlugin`; the other two imports are skipped. -/
def Registry.autodiscover (reg : Registry) : Registry :=
  match reg.register BasicStealthPlugin with
  | .ok reg' => reg'
  | .error _ => reg

/-- `BrowserConfig` (`config/schema.py`) with its field defaults. -/
structure BrowserConfig where
  type : String := "chromium"
  headless : Bool := true
  args : List String := []
  slow_mo : Int := 0
deriving Repr, DecidableEq

/-- `BehaviorConfig` (`config/schema.py`) with its field defaults. -/
structure BehaviorConfig where
  human_delays : Bool := true
  delay_range : Rat × Rat := (3/10, 3/2)
deriving Repr, DecidableEq

/-- `RetryConfig` (`config/schema.py`) with its field defaults. -/
structure RetryConfig where
  enabled : Bool := true
  max_attempts : Int := 3
  backoff : String := "exponential"
deriving Repr, DecidableEq

/-- `PhantomConfig` (`config/schema.py` lines 162-215); the sections the
claims touch. -/
structure PhantomConfig where
  level : Int := 1
  browser : BrowserConfig := {}
  behavior : BehaviorConfig := {}
  retry : RetryConfig := {}
deriving Repr, DecidableEq

/-- Pydantic validation failure. -/
inductive ConfigError where
  | validationError
deriving Repr, DecidableEq

/-- `PhantomConfig(level=...)`: the `ge=0, le=4` field bound and the
`validate_level` validator reject anything outside 0-4; every other
section takes its defaults. -/
def mkPhantomConfig (level : Int) : Except ConfigError PhantomConfig :=
  if 0 ≤ level ∧ level ≤ 4 then .ok { level := level }
  else .error .validationError

/-- Stable insertion keeps the relative order of any fixed priority:
inserting `x` passes over exactly the elements of strictly smaller
priority, so filtering at one priority value commutes with insertion up
to prepending `x` when it has that priority. -/
theorem filter_orderedInsert (q : Int) (x : Plugin) (l : List Plugin) :
    (l.orderedInsert priorityLE x).filter (fun p => p.priority == q) =
      if x.priority == q then
        x :: l.filter (fun p => p.priority == q)
      else l.filter (fun p => p.priority == q) := by
  induction l with
  | nil =>
    rw [List.orderedInsert_nil, List.filter_cons]
  | cons b bs ih =>
    simp only [List.orderedInsert]
    by_cases hxb : priorityLE x b
    · rw [if_pos hxb, List.filter_cons, List.filter_cons]
    · rw [if_neg hxb, List.filter_cons, ih, List.filter_cons]
      by_cases hxq : (x.priority == q) = true
      · have hlt : b.priority < x.priority := by
          simpa [priorityLE, Int.not_le] using hxb
        have hbq : (b.priority == q) = false := by
          have hx : x.priority = q := by simpa using hxq
          have hne : b.priority ≠ q := by omega
          simpa using hne
        simp [hxq, hbq]
      · simp only [Bool.not_eq_true] at hxq
        by_cases hbq : (b.priority == q) = true <;> simp [hxq, hbq]

/-- Python's `sorted` is stable: filtering the insertion-sorted list at
any one priority value gives exactly the same sublist as filtering the
input. -/
theorem filter_insertionSort (q : Int) (l : List Plugin) :
    (List.insertionSort priorityLE l).filter (fun p => p.priority == q) =
      l.filter (fun p => p.priority == q) := by
  induction l with
  | nil => rfl
  | cons a l ih =>
    rw [List.insertionSort, filter_orderedInsert, ih, List.filter_cons]

/-- Every candidate kept by the `get_for_level` loop passed the
compatibility check. -/
theorem level_candidates_compatible (reg : Registry) (level : Nat)
    (browser_type : String) :
    ∀ p ∈ reg.level_candidates level browser_type,
      p.compatible browser_type = true := by
  intro p hp
  rw [Registry.level_candidates, List.mem_filterMap] at hp
  obtain ⟨n, -, heq⟩ := hp
  split at heq
  · split at heq
    · next hc => cases heq; exact hc
    · cases heq
  · cases heq

/-- C1: for every level 0-4 and browser type, `get_for_level` returns
only plugins whose compatibility predicate accepts the browser, in
non-decreasing priority order, and plugins sharing a priority keep the
relative order of the level's plugin-name table (the table-order
candidate list `level_candidates`). -/
theorem c1_get_for_level_filtered_sorted_stable (reg : Registry)
    (level : Nat) (_hlevel : level ≤ 4) (browser_type : String) :
    (∀ p ∈ reg.get_for_level level browser_type,
      p.compatible browser_type = true) ∧
    (reg.get_for_level level browser_type).Sorted priorityLE ∧
    (∀ q : Int,
      (reg.get_for_level level browser_type).filter (fun p => p.priority == q) =
        (reg.level_candidates level browser_type).filter
          (fun p => p.priority == q)) := by
  refine ⟨?_, ?_, ?_⟩
  · intro p hp
    rw [Registry.get_for_level] at hp
    have hp' : p ∈ reg.level_candidates level browser_type :=
      (List.perm_insertionSort priorityLE _).mem_iff.mp hp
    exact level_candidates_compatible reg level browser_type p hp'
  · exact List.sorted_insertionSort priorityLE _
  · intro q
    exact filter_insertionSort q _

/-- C1 witness: the theorem applied at level 2, browser `"chromium"`,
and the autodiscovered registry. -/
theorem c1_get_for_level_witness :
    (∀ p ∈ (Registry.autodiscover Registry.empty).get_for_level 2 "chromium",
      p.compatible "chromium" = true) ∧
    ((Registry.autodiscover Registry.empty).get_for_level 2 "chromium").Sorted
      priorityLE ∧
    (∀ q : Int,
      ((Registry.autodiscover Registry.empty).get_for_level 2
          "chromium").filter (fun p => p.priority == q) =
        ((Registry.autodiscover Registry.empty).level_candidates 2
          "chromium").filter (fun p => p.priority == q)) :=
  c1_get_for_level_filtered_sorted_stable (Registry.autodiscover Registry.empty)
    2 (by decide) "chromium"

/-- C8 counterexample: a plugin class declaring the empty name is
accepted by `register` (the source checks only `hasattr`, not
non-emptiness), so the claim that registration fails for classes
without a non-empty name is false. -/
theorem c8_register_empty_name_counterexample :
    (Registry.empty.register { name? := some "" }).isOk = true := rfl

/-- C8 as amended: `register` fails (with `AttributeError`) exactly when
the class declares no `name` attribute at all — an empty name is
accepted — and re-registering under an already-registered name succeeds
silently with the later class replacing the earlier one, so a subsequent
`get` returns the most recent registration. -/
theorem c8_register_hasattr_last_writer_wins :
    (∀ (reg : Registry) (c : PluginClass), c.name? = Option.none →
      reg.register c = .error .attributeError) ∧
    (∀ (reg : Registry) (n : String) (c₁ c₂ : PluginClass)
        (reg₁ reg₂ : Registry), c₁.name? = some n → c₂.name? = some n →
      reg.register c₁ = .ok reg₁ → reg₁.register c₂ = .ok reg₂ →
      reg₂.get n = .ok c₂) := by
  constructor
  · intro reg c hc
    rw [Registry.register, hc]
  · intro reg n c₁ c₂ reg₁ reg₂ h₁ h₂ hr₁ hr₂
    rw [Registry.register, h₁] at hr₁
    rw [Registry.register, h₂] at hr₂
    obtain rfl : (fun m => if m = n then some c₁ else reg m) = reg₁ := by
      simpa using hr₁
    obtain rfl : (fun m => if m = n then some c₂
        else if m = n then some c₁ else reg m) = reg₂ := by
      simpa using hr₂
    simp [Registry.get]

/-- C8 witness: registering two classes under `"stealth.custom"` in turn
leaves the second as the one `get` returns. -/
theorem c8_register_witness :
    Registry.get
      (fun m => if m = "stealth.custom"
        then some { name? := some "stealth.custom", priority := 20 }
        else if m = "stealth.custom"
        then some { name? := some "stealth.custom", priority := 15 }
        else Registry.empty m)
      "stealth.custom" =
      .ok { name? := some "stealth.custom", priority := 20 } :=
  c8_register_hasattr_last_writer_wins.2 Registry.empty "stealth.custom"
    { name? := some "stealth.custom", priority := 15 }
    { name? := some "stealth.custom", priority := 20 }
    _ _ rfl rfl rfl rfl

/-- C9: `get_plugins_for_level` succeeds exactly on integers 0-4, the
returned list is empty only at level 0, level 0's list is no longer than
level 1's, and integers outside 0-4 fail with the invalid-level error.
(The source lookup is a pure read returning a `.copy()` of the table
entry; the embedding is a total function, so repeated lookups trivially
agree.) -/
theorem c9_get_plugins_for_level_bounds (level : Int) :
    (0 ≤ level → level ≤ 4 →
      ∃ xs, get_plugins_for_level level = .ok xs ∧ (xs = [] → level = 0)) ∧
    (level < 0 ∨ 4 < level →
      get_plugins_for_level level = .error .invalidLevel) ∧
    (∃ xs0 xs1, get_plugins_for_level 0 = .ok xs0 ∧
      get_plugins_for_level 1 = .ok xs1 ∧ xs0.length ≤ xs1.length) := by
  refine ⟨?_, ?_, ⟨[], ["stealth.basic", "fingerprint.navigator"],
    by decide, by decide, by decide⟩⟩
  · intro h0 h4
    refine ⟨LEVEL_PLUGINS level.toNat, ?_, ?_⟩
    · rw [get_plugins_for_level, if_pos ⟨h0, h4⟩]
    · intro hnil
      by_contra hne
      interval_cases level <;> simp_all [LEVEL_PLUGINS]
  · intro h
    rw [get_plugins_for_level, if_neg]
    omega

/-- C9 witness: the theorem applied at levels 2 and 7. -/
theorem c9_get_plugins_for_level_witness :
    (∃ xs, get_plugins_for_level 2 = .ok xs ∧ (xs = [] → (2 : Int) = 0)) ∧
    get_plugins_for_level 7 = .error .invalidLevel :=
  ⟨(c9_get_plugins_for_level_bounds 2).1 (by decide) (by decide),
   (c9_get_plugins_for_level_bounds 7).2.1 (by omega)⟩

/-- C5 counterexample: after autodiscovery (which can only register
`stealth.basic` — the repository contains no fingerprint or behavior
plugin modules), resolving plugins for level 2 yields a list with no
plugin named `fingerprint.canvas`, so the claim's presence assertion is
false. -/
theorem c5_canvas_absent_counterexample :
    "fingerprint.canvas" ∉
      ((Registry.autodiscover Registry.empty).get_for_level 2
        "chromium").map Plugin.name := by
  decide

/-- C5 as amended: `PhantomConfig(level=2)` carries the stated defaults
(`browser.type = "chromium"`, `behavior.delay_range = (0.3, 1.5)`,
`retry.max_attempts = 3`), and resolving plugins for level 2 after
autodiscovery returns exactly the one plugin `stealth.basic`:
`stealth.basic` is present, but `fingerprint.canvas` is absent because
no plugin class of that name exists in the codebase and unregistered
names are silently skipped. -/
theorem c5_level2_defaults_and_resolution :
    (∃ cfg, mkPhantomConfig 2 = .ok cfg ∧
      cfg.browser.type = "chromium" ∧
      cfg.behavior.delay_range = (3/10, 3/2) ∧
      cfg.retry.max_attempts = 3) ∧
    ((Registry.autodiscover Registry.empty).get_for_level 2
        "chromium").map Plugin.name = ["stealth.basic"] := by
  exact ⟨⟨{ level := 2 }, rfl, rfl, rfl, rfl⟩, by decide⟩

/-- `SessionError` (`core/exceptions.py`), raised by session action
methods on a closed session. -/
inductive SessionError where
  | sessionClosed
deriving Repr, DecidableEq

/-- `Session` (`core/session.py`): one browser context (opaque), a
persona, behavior configuration, page handles, and the `_closed` flag
(false on construction). -/
structure Session where
  persona : Persona
  behavior : BehaviorConfig := {}
  pages : List Nat := []
  closed : Bool := false
deriving Repr, DecidableEq

/-- `Session.new_page` (`core/session.py` lines 63-84): `SessionError`
when closed; otherwise the engine creates a page (handle `h`) which is
appended to the session's page list and returned. -/
def Session.new_page (s : Session) (h : Nat) :
    Except SessionError (Nat × Session) :=
  if s.closed then .error .sessionClosed
  else .ok (h, { s with pages := s.pages ++ [h] })

/-- `Session.human_delay` (`core/session.py` lines 121-146): returns at
once when human delays are disabled, otherwise sleeps a random duration
inside the effective range (arguments defaulting to the configured
`delay_range`). Unlike the other action helpers it performs no
closed-session check, so it never raises `SessionError`; the value
returned here is the effective range slept over (`none` when delays are
disabled). -/
def Session.human_delay (s : Session) (min_sec max_sec : Option Rat) :
    Except SessionError (Option (Rat × Rat)) :=
  if !s.behavior.human_delays then .ok Option.none
  else .ok (some (min_sec.getD s.behavior.delay_range.1,
                  max_sec.getD s.behavior.delay_range.2))

/-- `Session.human_type` (`core/session.py` lines 148-186):
`SessionError` when closed; otherwise engine typing with per-character
waits (pure orchestration of engine calls, no further session state). -/
def Session.human_type (s : Session) (pg : Nat) (selector text : String) :
    Except SessionError Unit :=
  if s.closed then .error .sessionClosed else .ok ()

/-- `Session.human_click` (`core/session.py` lines 188-216):
`SessionError` when closed; otherwise a short delay then the engine
click. -/
def Session.human_click (s : Session) (pg : Nat) (selector : String) :
    Except SessionError Unit :=
  if s.closed then .error .sessionClosed else .ok ()

/-- `Session.human_scroll` (`core/session.py` lines 218-245):
`SessionError` when closed; otherwise the engine scroll then a delay. -/
def Session.human_scroll (s : Session) (pg : Nat) (distance : Int) :
    Except SessionError Unit :=
  if s.closed then .error .sessionClosed else .ok ()

/-- `Session.close` (`core/session.py` lines 86-117): an immediate no-op
when already closed; otherwise cookies are read from the engine
(`cookieResult`, `none` when extraction raises — the failure is
swallowed and the persona's cookies left alone), the persona is marked
used, the engine context is closed (failures swallowed), and in the
`finally` block `_closed` is set. -/
def Session.close (s : Session)
    (cookieResult : Option (List (String × String))) (now : Nat) : Session :=
  if s.closed then s
  else
    let persona' := match cookieResult with
      | some cs => { s.persona with cookies := cs }
      | Option.none => s.persona
    { s with persona := persona'.mark_used now, closed := true }

/-- A sequence of `close()` calls, each with its own engine cookie
outcome and clock reading. -/
def Session.closeMany (s : Session) :
    List (Option (List (String × String)) × Nat) → Session
  | [] => s
  | (ck, t) :: rest => ((s.close ck t).closeMany rest)

/-- `close` always leaves the session closed. -/
theorem close_closed (s : Session)
    (ck : Option (List (String × String))) (now : Nat) :
    (s.close ck now).closed = true := by
  rw [Session.close.eq_def]
  by_cases h : s.closed = true
  · rw [if_pos h]; exact h
  · rw [if_neg h]

/-- Closing an already-closed session changes nothing. -/
theorem close_of_closed (s : Session) (hs : s.closed = true)
    (ck : Option (List (String × String))) (now : Nat) :
    s.close ck now = s := by
  rw [Session.close.eq_def, if_pos hs]

/-- Any sequence of further `close()` calls after a session is closed
changes nothing. -/
theorem closeMany_of_closed (s : Session) (hs : s.closed = true) :
    ∀ os : List (Option (List (String × String)) × Nat),
      s.closeMany os = s := by
  intro os
  induction os with
  | nil => rfl
  | cons o rest ih =>
    obtain ⟨ck, t⟩ := o
    rw [Session.closeMany, close_of_closed s hs]
    exact ih

/-- A concrete closed session over `personaWithProxy`. -/
def closedSession : Session :=
  { persona := personaWithProxy, closed := true }

/-- C4 counterexample: `human_delay` performs no closed-session check —
on a closed session it succeeds instead of raising `SessionError`, so
the claim's "raises if and only if invoked after the session is closed"
fails for `human_delay`. -/
theorem c4_human_delay_counterexample :
    closedSession.closed = true ∧
    closedSession.human_delay Option.none Option.none =
      .ok (some (3/10, 3/2)) :=
  ⟨rfl, rfl⟩

/-- C4 as amended: `new_page`, `human_type`, `human_click` and
`human_scroll` raise `SessionError` if and only if the session is
closed; `human_delay` never raises (it has no closed-session check);
`close()` on a closed session is a no-op; and `close()` always leaves
the session closed, whatever the cookie-extraction outcome. -/
theorem c4_session_closed_semantics (s : Session) (h pg : Nat)
    (selector text : String) (distance : Int) (mn mx : Option Rat)
    (ck : Option (List (String × String))) (now : Nat) :
    ((s.new_page h = .error .sessionClosed) ↔ s.closed = true) ∧
    ((s.human_type pg selector text = .error .sessionClosed) ↔
      s.closed = true) ∧
    ((s.human_click pg selector = .error .sessionClosed) ↔
      s.closed = true) ∧
    ((s.human_scroll pg distance = .error .sessionClosed) ↔
      s.closed = true) ∧
    ((s.human_delay mn mx).isOk = true) ∧
    (s.closed = true → s.close ck now = s) ∧
    ((s.close ck now).closed = true) := by
  refine ⟨?_, ?_, ?_, ?_, ?_, fun hs => close_of_closed s hs ck now,
    close_closed s ck now⟩
  · cases hs : s.closed <;> simp [Session.new_page, hs]
  · cases hs : s.closed <;> simp [Session.human_type, hs]
  · cases hs : s.closed <;> simp [Session.human_click, hs]
  · cases hs : s.closed <;> simp [Session.human_scroll, hs]
  · cases hd : s.behavior.human_delays <;>
      simp [Session.human_delay, hd, Except.isOk, Except.toBool]

/-- C4 witness: the amended theorem applied to the concrete closed
session (sixth conjunct, closed-session no-op). -/
theorem c4_session_closed_witness :
    closedSession.close Option.none 5 = closedSession :=
  (c4_session_closed_semantics closedSession 0 0 "a" "b" 0 Option.none
    Option.none Option.none 5).2.2.2.2.2.1 rfl

/-- A concrete open session over `personaWithProxy`. -/
def openSession : Session := { persona := personaWithProxy }

/-- C10: from an open session, a first `close()` saves cookies, bumps
`use_count` by exactly one and stamps `last_used`; any number of further
`close()` calls (whatever their engine outcomes and clock readings)
leave the entire session — in particular the persona — unchanged, so n
closes increment `use_count` by exactly 1 in total and refresh
`last_used` exactly once. -/
theorem c10_repeated_close (s : Session) (hopen : s.closed = false)
    (ck : Option (List (String × String))) (t : Nat)
    (os : List (Option (List (String × String)) × Nat)) :
    ((s.close ck t).closeMany os = s.close ck t) ∧
    (((s.close ck t).closeMany os).persona.use_count =
      s.persona.use_count + 1) ∧
    (((s.close ck t).closeMany os).persona.last_used = some t) := by
  have hrest : (s.close ck t).closeMany os = s.close ck t :=
    closeMany_of_closed _ (close_closed s ck t) os
  refine ⟨hrest, ?_, ?_⟩ <;>
  · rw [hrest, Session.close.eq_def, if_neg (by simp [hopen])]
    cases ck <;> simp [Persona.mark_used]

/-- C10 witness: the theorem applied to the concrete open session with
two further close calls. -/
theorem c10_repeated_close_witness :
    ((openSession.close (some [("k", "v")]) 7).closeMany
        [(Option.none, 8), (some [], 9)] =
      openSession.close (some [("k", "v")]) 7) ∧
    (((openSession.close (some [("k", "v")]) 7).closeMany
        [(Option.none, 8), (some [], 9)]).persona.use_count =
      openSession.persona.use_count + 1) ∧
    (((openSession.close (some [("k", "v")]) 7).closeMany
        [(Option.none, 8), (some [], 9)]).persona.last_used = some 7) :=
  c10_repeated_close openSession rfl (some [("k", "v")]) 7
    [(Option.none, 8), (some [], 9)]

/-- Outcome of one plugin's `apply(context)` engine call. -/
inductive ApplyOutcome where
  | ok
  | raises
deriving Repr, DecidableEq

/-- A plugin as `ContextManager` drives it, together with the oracle
outcome of its `apply` call. -/
structure AppliedPlugin where
  plugin : Plugin
  outcome : ApplyOutcome

/-- The sort key of `sorted(self.plugins, key=lambda p: p.priority)` in
`ContextManager.create`. -/
def apLE (a b : AppliedPlugin) : Prop :=
  a.plugin.priority ≤ b.plugin.priority

instance : DecidableRel apLE :=
  fun a b => Int.decLe a.plugin.priority b.plugin.priority

instance : IsTotal AppliedPlugin apLE :=
  ⟨fun a b => Int.le_total a.plugin.priority b.plugin.priority⟩

instance : IsTrans AppliedPlugin apLE := ⟨fun _ _ _ => Int.le_trans⟩

/-- The `for plugin in sorted(...)` loop of `ContextManager.create`:
apply each browser-compatible plugin in order, stopping at the first one
whose `apply` raises; `true` means the loop completed. -/
def applyAll (browser_type : String) : List AppliedPlugin → Bool
  | [] => true
  | p :: ps =>
    if p.plugin.compatible browser_type then
      match p.outcome with
      | .raises => false
      | .ok => applyAll browser_type ps
    else applyAll browser_type ps

/-- `BrowserContextError` sites inside `ContextManager.create`. -/
inductive CreateError where
  | buildFailed
  | pluginsFailed
deriving Repr, DecidableEq

/-- What `ContextManager.create` leaves behind: the returned context (or
the raised error) and whether the freshly created context was closed
during `create` itself. -/
structure CreateResult where
  result : Except CreateError Nat
  contextClosed : Bool
deriving Repr, DecidableEq

/-- `ContextManager.create` (`core/context.py` lines 208-258): build the
context (`buildOk` is the engine outcome; on failure
`BrowserContextError` propagates and no context exists), then apply the
plugins sorted by priority, filtered by compatibility; if any `apply`
raises, the context is closed and `BrowserContextError` is raised,
otherwise the context is returned. -/
def ContextManager.create (plugins : List AppliedPlugin)
    (browser_type : String) (buildOk : Bool) (ctx : Nat) : CreateResult :=
  if buildOk = false then
    { result := .error .buildFailed, contextClosed := false }
  else if applyAll browser_type (List.insertionSort apLE plugins) then
    { result := .ok ctx, contextClosed := false }
  else
    { result := .error .pluginsFailed, contextClosed := true }

/-- The plugin loop fails as soon as some compatible plugin raises. -/
theorem applyAll_eq_false (browser_type : String)
    (l : List AppliedPlugin)
    (hfail : ∃ p ∈ l, p.plugin.compatible browser_type = true ∧
      p.outcome = .raises) :
    applyAll browser_type l = false := by
  induction l with
  | nil => obtain ⟨p, hp, -⟩ := hfail; cases hp
  | cons a l ih =>
    obtain ⟨p, hp, hc, ho⟩ := hfail
    rw [applyAll]
    rcases List.mem_cons.mp hp with rfl | hmem
    · rw [if_pos hc, ho]
    · by_cases ha : a.plugin.compatible browser_type = true
      · rw [if_pos ha]
        cases houtc : a.outcome with
        | raises => rfl
        | ok => exact ih ⟨p, hmem, hc, ho⟩
      · rw [if_neg ha]
        exact ih ⟨p, hmem, hc, ho⟩

/-- If the plugin loop completed, every compatible plugin's `apply`
succeeded. -/
theorem applyAll_eq_true (browser_type : String) (l : List AppliedPlugin)
    (h : applyAll browser_type l = true) :
    ∀ p ∈ l, p.plugin.compatible browser_type = true →
      p.outcome = .ok := by
  induction l with
  | nil => intro p hp; cases hp
  | cons a l ih =>
    rw [applyAll] at h
    intro p hp hc
    rcases List.mem_cons.mp hp with rfl | hmem
    · rw [if_pos hc] at h
      cases ho : p.outcome with
      | ok => rfl
      | raises => rw [ho] at h; cases h
    · by_cases ha : a.plugin.compatible browser_type = true
      · rw [if_pos ha] at h
        cases ho : a.outcome with
        | ok => rw [ho] at h; exact ih h p hmem hc
        | raises => rw [ho] at h; cases h
      · rw [if_neg ha] at h
        exact ih h p hmem hc

/-- C6: in `ContextManager.create`, if applying any compatible plugin
raises, the partially-configured context is closed and the
context-setup `BrowserContextError` is raised to the caller; and
whenever a context is returned, every compatible plugin was applied
successfully — no partially-configured context is ever returned. -/
theorem c6_create_no_partial_context (plugins : List AppliedPlugin)
    (browser_type : String) (ctx : Nat) :
    ((∃ p ∈ plugins, p.plugin.compatible browser_type = true ∧
        p.outcome = .raises) →
      ContextManager.create plugins browser_type true ctx =
        { result := .error .pluginsFailed, contextClosed := true }) ∧
    (∀ c, (ContextManager.create plugins browser_type true ctx).result =
        .ok c →
      ∀ p ∈ plugins, p.plugin.compatible browser_type = true →
        p.outcome = .ok) := by
  constructor
  · intro hfail
    have hperm := List.perm_insertionSort apLE plugins
    have hfail' : ∃ p ∈ List.insertionSort apLE plugins,
        p.plugin.compatible browser_type = true ∧ p.outcome = .raises := by
      obtain ⟨p, hp, hc, ho⟩ := hfail
      exact ⟨p, hperm.mem_iff.mpr hp, hc, ho⟩
    rw [ContextManager.create, if_neg (by simp),
      if_neg (by simp [applyAll_eq_false browser_type _ hfail'])]
  · intro c hok p hp hc
    rw [ContextManager.create, if_neg (by simp)] at hok
    by_cases happ : applyAll browser_type (List.insertionSort apLE plugins)
      = true
    · exact applyAll_eq_true browser_type _ happ p
        ((List.perm_insertionSort apLE plugins).mem_iff.mpr hp) hc
    · simp only [Bool.not_eq_true] at happ
      rw [if_neg (by simp [happ])] at hok
      cases hok

/-- C6 witness: a two-plugin list whose second (compatible) plugin
raises — `create` reports the plugin failure and records that the
context was closed. -/
theorem c6_create_witness :
    ContextManager.create
      [⟨{ name := "stealth.basic", priority := 10,
          compatible := fun _ => true }, .ok⟩,
       ⟨{ name := "fingerprint.navigator", priority := 100,
          compatible := fun _ => true }, .raises⟩]
      "chromium" true 1 =
      { result := .error .pluginsFailed, contextClosed := true } :=
  (c6_create_no_partial_context _ "chromium" 1).1
    ⟨⟨{ name := "fingerprint.navigator", priority := 100,
        compatible := fun _ => true }, .raises⟩,
      by simp, rfl, rfl⟩

end PhantomPersona
